import Mathlib

/-!
Shallow embedding of the call-signaling and presence relay of
`src/sockets/callHandlers.js` (the same socket block also appears verbatim in
`src/server.js`).  The server keeps two in-memory JS `Map`s,
`activeUsers : socketId -> user info` and `activeCalls : callId -> call info`,
and reacts to socket events (`user-joined`, `initiate-call`, `accept-call`,
`reject-call`, `end-call`, `offer`, `answer`, `ice-candidate`,
`get-active-calls`, `disconnect`).  Each handler is embedded as a pure
function from the server state (plus its external inputs: the user directory,
the freshly generated call id, the current clock reading in milliseconds) to
a new state together with the list of emitted socket messages and the list of
durable database writes it issues, in program order.
-/

namespace CallServer

/-- Truthiness of a JS string-valued field: `undefined`/`null` is `none`,
and the empty string is also falsy under `||`. -/
def orFalsy (a b : Option String) : Option String :=
  match a with
  | none => b
  | some s => if s = "" then b else a

/-- JS `a || 'default'` for a string-valued `a` (empty string falls through). -/
def falsyD (a : Option String) (d : String) : String :=
  match a with
  | none => d
  | some s => if s = "" then d else s

/-- Data a client supplies on `user-joined`, stored in `activeUsers`. -/
structure UserData where
  id : String
  role : String
  username : Option String := none
  name : Option String := none
  email : Option String := none
deriving Repr, DecidableEq

/-- A record of the external User directory (`User.findById`): the fields the
socket handlers read. -/
structure UserRec where
  username : Option String := none
  name : Option String := none
  email : Option String := none
  socketId : Option String := none
deriving Repr, DecidableEq

/-- The display-name fallback chain `u.username || u.name || u.email`. -/
def resolveUserName (u : UserRec) : Option String :=
  orFalsy (orFalsy u.username u.name) u.email

/-- One side of a call as stored in `activeCalls` (`caller` / `callee`). -/
structure Participant where
  id : String
  name : String
  socketId : String
deriving Repr, DecidableEq

/-- The in-memory call session stored in `activeCalls` (`callId -> call info`).
`startTime` is a millisecond clock reading (`new Date()`). -/
structure CallInfo where
  callId : String
  caller : Participant
  callee : Participant
  status : String
  startTime : Int
deriving Repr, DecidableEq

/-- The payload of a `Call.findByIdAndUpdate` durable write.  A field that the
JS update object does not mention is `none`; in particular the code never
writes a `reason` field, so `reason` is `none` in every write the handlers
issue (the field is present here so that specification-level statements about
it can be expressed). -/
structure CallUpdate where
  callId : String
  status : Option String := none
  endTime : Option Int := none
  duration : Option Int := none
  reason : Option String := none
deriving Repr, DecidableEq

/-- A durable write issued by a handler, in program order. -/
inductive DbOp where
  | userUpdate (userId : String) (isOnline : Bool) (socketId : Option String)
  | callCreate (callId : String) (caller : String) (callee : String) (status : String)
  | callUpdate (u : CallUpdate)
deriving Repr, DecidableEq

/-- A socket message emitted by a handler.  `toSock` is the destination socket
id (`"*"` for the `io.emit` broadcast to every connection); the remaining
fields are the optional payload properties, `none` when the JS payload object
does not carry them. -/
structure Emit where
  toSock : String
  event : String
  callId : Option String := none
  message : Option String := none
  reason : Option String := none
  duration : Option Int := none
  callerId : Option String := none
  callerName : Option String := none
  callerSocketId : Option String := none
  call : Option CallInfo := none
  calls : Option (List CallInfo) := none
  users : Option (List UserData) := none
  offer : Option String := none
  answer : Option String := none
  candidate : Option String := none
  caller : Option String := none
  callee : Option String := none
  sender : Option String := none
  userId : Option String := none
  username : Option String := none
  role : Option String := none
  isOnline : Option Bool := none
deriving Repr, DecidableEq

/-- JS `Map.get`: first entry with the key (keys are unique in a real `Map`). -/
def mapGet {α : Type} (m : List (String × α)) (k : String) : Option α :=
  (m.find? (fun p => p.1 = k)).map Prod.snd

/-- JS `Map.set`: overwrite in place if the key is present, else append. -/
def mapSet {α : Type} (m : List (String × α)) (k : String) (v : α) :
    List (String × α) :=
  if m.any (fun p => p.1 = k) then
    m.map (fun p => if p.1 = k then (k, v) else p)
  else
    m ++ [(k, v)]

/-- JS `Map.delete`: remove every entry with the key. -/
def mapDelete {α : Type} (m : List (String × α)) (k : String) :
    List (String × α) :=
  m.filter (fun p => p.1 ≠ k)

/-- The two in-memory maps of the server. -/
structure ServerState where
  activeUsers : List (String × UserData)
  activeCalls : List (String × CallInfo)
deriving Repr, DecidableEq

/-- The result of running one handler: new state, emitted messages, durable
writes, each in program order. -/
structure Output where
  state : ServerState
  emits : List Emit
  dbOps : List DbOp
deriving Repr, DecidableEq

/-- The helper `broadcastToAdmins(event, data)`: iterate `activeUsers` and emit
to every socket whose user data has role `admin`. -/
def broadcastToAdmins (users : List (String × UserData)) (mk : String → Emit) :
    List Emit :=
  (users.filter (fun p => p.2.role = "admin")).map (fun p => mk p.1)

/-- The `user-joined` handler: store the presence entry, write
`isOnline=true`/`socketId` to the directory, push `doctor-info` back to a
doctor, broadcast `user-status-update` to admins and `active-users` to all. -/
def userJoined (st : ServerState) (sid : String) (ud : UserData) : Output :=
  let users := mapSet st.activeUsers sid ud
  let doctorEmits : List Emit :=
    if ud.role = "doctor" then [{ toSock := sid, event := "doctor-info" }] else []
  let adminEmits := broadcastToAdmins users (fun s =>
    { toSock := s, event := "user-status-update", userId := some ud.id,
      username := orFalsy (orFalsy ud.username ud.name) ud.email,
      role := some ud.role, isOnline := some true })
  { state := { st with activeUsers := users },
    emits := doctorEmits ++ adminEmits ++
      [{ toSock := "*", event := "active-users", users := some (users.map Prod.snd) }],
    dbOps := [DbOp.userUpdate ud.id true (some sid)] }

/-- The `initiate-call` handler.  `findById` is the external User directory,
`newCallId` the id the Call store generates for the fresh record
(`call._id.toString()`), `now` the clock reading for `startTime`.  If the
callee is absent from the directory or has a falsy `socketId`, the caller
gets `call-error` "User is offline" and nothing else happens. -/
def initiateCall (st : ServerState) (sid : String)
    (callerId calleeId : String) (callerName : Option String)
    (findById : String → Option UserRec) (newCallId : String) (now : Int) :
    Output :=
  match findById calleeId with
  | none =>
      { state := st,
        emits := [{ toSock := sid, event := "call-error",
                    message := some "User is offline" }],
        dbOps := [] }
  | some callee =>
    match callee.socketId with
    | none =>
        { state := st,
          emits := [{ toSock := sid, event := "call-error",
                      message := some "User is offline" }],
          dbOps := [] }
    | some calleeSock =>
      if calleeSock = "" then
        { state := st,
          emits := [{ toSock := sid, event := "call-error",
                      message := some "User is offline" }],
          dbOps := [] }
      else
        let callerUser := findById callerId
        let callerDisplay :=
          falsyD (orFalsy callerName (callerUser.bind resolveUserName)) "Unknown"
        let ci : CallInfo :=
          { callId := newCallId,
            caller := { id := callerId, name := callerDisplay, socketId := sid },
            callee := { id := calleeId, name := falsyD (resolveUserName callee) "Unknown",
                        socketId := calleeSock },
            status := "initiated",
            startTime := now }
        let calls := mapSet st.activeCalls newCallId ci
        { state := { st with activeCalls := calls },
          emits :=
            { toSock := calleeSock, event := "incoming-call",
              callId := some newCallId, callerId := some callerId,
              callerName := some callerDisplay, callerSocketId := some sid }
            :: broadcastToAdmins st.activeUsers (fun s =>
                 { toSock := s, event := "new-call", call := mapGet calls newCallId }),
          dbOps := [DbOp.callCreate newCallId callerId calleeId "initiated"] }

/-- The `accept-call` handler: `call-error` "Call not found" when the id is not
in `activeCalls`; otherwise set the status to `accepted` in memory, write it
durably, notify the caller's socket and broadcast to admins. -/
def acceptCall (st : ServerState) (sid : String) (callId : String) : Output :=
  match mapGet st.activeCalls callId with
  | none =>
      { state := st,
        emits := [{ toSock := sid, event := "call-error",
                    message := some "Call not found" }],
        dbOps := [] }
  | some callInfo =>
      let ci := { callInfo with status := "accepted" }
      { state := { st with activeCalls := mapSet st.activeCalls callId ci },
        emits :=
          { toSock := ci.caller.socketId, event := "call-accepted",
            callId := some callId }
          :: broadcastToAdmins st.activeUsers (fun s =>
               { toSock := s, event := "call-status-update", call := some ci }),
        dbOps := [DbOp.callUpdate { callId := callId, status := some "accepted" }] }

/-- The `reject-call` handler: silently returns when the id is not in
`activeCalls`; otherwise writes status `rejected` with `endTime` durably,
notifies the caller's socket with `call-rejected`, deletes the session and
broadcasts `call-ended` with reason `rejected` to admins. -/
def rejectCall (st : ServerState) (sid : String) (callId : String) (now : Int) :
    Output :=
  match mapGet st.activeCalls callId with
  | none => { state := st, emits := [], dbOps := [] }
  | some callInfo =>
      { state := { st with activeCalls := mapDelete st.activeCalls callId },
        emits :=
          { toSock := callInfo.caller.socketId, event := "call-rejected",
            callId := some callId }
          :: broadcastToAdmins st.activeUsers (fun s =>
               { toSock := s, event := "call-ended", callId := some callId,
                 reason := some "rejected" }),
        dbOps := [DbOp.callUpdate
          { callId := callId, status := some "rejected", endTime := some now }] }

/-- The `end-call` handler: silently returns when the id is not in
`activeCalls`; otherwise computes
`duration = Math.floor((endTime - startTime) / 1000)`, writes status `ended`
with `endTime` and `duration` durably, emits `call-ended` to both
participants' sockets, deletes the session and broadcasts `call-ended` with
the duration to admins. -/
def endCall (st : ServerState) (sid : String) (callId : String) (now : Int) :
    Output :=
  match mapGet st.activeCalls callId with
  | none => { state := st, emits := [], dbOps := [] }
  | some callInfo =>
      let dur := Int.fdiv (now - callInfo.startTime) 1000
      { state := { st with activeCalls := mapDelete st.activeCalls callId },
        emits :=
          [{ toSock := callInfo.caller.socketId, event := "call-ended",
             callId := some callId },
           { toSock := callInfo.callee.socketId, event := "call-ended",
             callId := some callId }]
          ++ broadcastToAdmins st.activeUsers (fun s =>
               { toSock := s, event := "call-ended", callId := some callId,
                 duration := some dur }),
        dbOps := [DbOp.callUpdate
          { callId := callId, status := some "ended", endTime := some now,
            duration := some dur }] }

/-- The `offer` relay: forward `data.offer` to `data.target`, stamping the
sending socket id as `caller`.  No state is read or written. -/
def relayOffer (st : ServerState) (sid target payload : String) : Output :=
  { state := st,
    emits := [{ toSock := target, event := "offer", offer := some payload,
                caller := some sid }],
    dbOps := [] }

/-- The `answer` relay: forward `data.answer` to `data.target`, stamping the
sending socket id as `callee`. -/
def relayAnswer (st : ServerState) (sid target payload : String) : Output :=
  { state := st,
    emits := [{ toSock := target, event := "answer", answer := some payload,
                callee := some sid }],
    dbOps := [] }

/-- The `ice-candidate` relay: forward `data.candidate` to `data.target`,
stamping the sending socket id as `sender`. -/
def relayIceCandidate (st : ServerState) (sid target payload : String) : Output :=
  { state := st,
    emits := [{ toSock := target, event := "ice-candidate",
                candidate := some payload, sender := some sid }],
    dbOps := [] }

/-- The `get-active-calls` handler: only a requester whose `activeUsers` entry
has role `admin` receives the `active-calls` list; anyone else gets nothing. -/
def getActiveCalls (st : ServerState) (sid : String) : Output :=
  match mapGet st.activeUsers sid with
  | some ud =>
      if ud.role = "admin" then
        { state := st,
          emits := [{ toSock := sid, event := "active-calls",
                      calls := some (st.activeCalls.map Prod.snd) }],
          dbOps := [] }
      else { state := st, emits := [], dbOps := [] }
  | none => { state := st, emits := [], dbOps := [] }

/-- Does a session reference the socket as caller or callee? (the scan
condition of the disconnect loop). -/
def involvesSocket (ci : CallInfo) (sid : String) : Bool :=
  ci.caller.socketId = sid || ci.callee.socketId = sid

/-- One iteration of the disconnect loop for a matching entry: the emitted
messages (`call-ended` with reason `disconnect` to the other participant,
then the admin broadcast) and the durable write (status `ended`, `endTime`,
`duration` — no reason field).  `users` is `activeUsers` as it stands during
the loop, i.e. still containing the disconnecting socket's entry. -/
def disconnectCallCleanup (users : List (String × UserData)) (sid : String)
    (now : Int) (entry : String × CallInfo) : List Emit × List DbOp :=
  let ci := entry.2
  let dur := Int.fdiv (now - ci.startTime) 1000
  let otherSocketId :=
    if ci.caller.socketId = sid then ci.callee.socketId else ci.caller.socketId
  ({ toSock := otherSocketId, event := "call-ended", callId := some entry.1,
     reason := some "disconnect" }
   :: broadcastToAdmins users (fun s =>
        { toSock := s, event := "call-ended", callId := some entry.1,
          reason := some "disconnect" }),
   [DbOp.callUpdate
     { callId := entry.1, status := some "ended", endTime := some now,
       duration := some dur }])

/-- The `disconnect` handler.  When the socket has no `activeUsers` entry the
whole body is skipped.  Otherwise: write the user offline, terminate every
session involving the socket (durable `ended` write, `call-ended` with reason
`disconnect` to the other participant, admin broadcast, removal), broadcast
`user-status-update` to admins, and drop the presence entry. -/
def handleDisconnect (st : ServerState) (sid : String) (now : Int) : Output :=
  match mapGet st.activeUsers sid with
  | none => { state := st, emits := [], dbOps := [] }
  | some userData =>
      let matched := st.activeCalls.filter (fun p => involvesSocket p.2 sid)
      { state :=
          { activeUsers := mapDelete st.activeUsers sid,
            activeCalls := st.activeCalls.filter (fun p => !(involvesSocket p.2 sid)) },
        emits :=
          (matched.map (fun p => (disconnectCallCleanup st.activeUsers sid now p).1)).flatten
          ++ broadcastToAdmins st.activeUsers (fun s =>
               { toSock := s, event := "user-status-update",
                 userId := some userData.id,
                 username := orFalsy (orFalsy userData.username userData.name)
                   userData.email,
                 role := some userData.role, isOnline := some false }),
        dbOps :=
          DbOp.userUpdate userData.id false none
          :: (matched.map (fun p => (disconnectCallCleanup st.activeUsers sid now p).2)).flatten }

/-- The offline guard of `initiate-call`: `!callee || !callee.socketId` holds of
the directory's answer for the callee. -/
def calleeOffline (findById : String → Option UserRec) (calleeId : String) : Bool :=
  match findById calleeId with
  | none => true
  | some u =>
    match u.socketId with
    | none => true
    | some s => s = ""

/-! Concrete fixtures used by the witnesses and counterexamples below. -/

/-- Employee `u1`, connected at socket `s1`. -/
def empU1 : UserData := { id := "u1", role := "employee", username := some "alice" }

/-- Employee `u2`, connected at socket `s2`. -/
def empU2 : UserData := { id := "u2", role := "employee", username := some "bob" }

/-- Admin `ua`, connected at socket `sA`. -/
def adminUA : UserData := { id := "ua", role := "admin", username := some "ada" }

/-- A directory with `u1`/`u2`/`u3` online and `u4` joined but with a null
socket id. -/
def exDir : String → Option UserRec := fun uid =>
  if uid = "u1" then some { username := some "alice", socketId := some "s1" }
  else if uid = "u2" then some { username := some "bob", socketId := some "s2" }
  else if uid = "u3" then some { username := some "carol", socketId := some "s3" }
  else if uid = "u4" then some { username := some "dave", socketId := none }
  else none

/-- A session between `u1@s1` and `u2@s2` that has been accepted. -/
def callAccepted1 : CallInfo :=
  { callId := "c1",
    caller := { id := "u1", name := "alice", socketId := "s1" },
    callee := { id := "u2", name := "bob", socketId := "s2" },
    status := "accepted", startTime := 1000 }

/-- A session between `u1@s1` and `u2@s2` still in the initiated state. -/
def callInitiated1 : CallInfo :=
  { callId := "c1",
    caller := { id := "u1", name := "alice", socketId := "s1" },
    callee := { id := "u2", name := "bob", socketId := "s2" },
    status := "initiated", startTime := 1000 }

/-- A session whose caller socket `s9` never registered presence. -/
def callGhost : CallInfo :=
  { callId := "c9",
    caller := { id := "u9", name := "ghost", socketId := "s9" },
    callee := { id := "u2", name := "bob", socketId := "s2" },
    status := "initiated", startTime := 2000 }

/-- State with one accepted call and an admin watching. -/
def stAccepted : ServerState :=
  { activeUsers := [("s1", empU1), ("s2", empU2), ("sA", adminUA)],
    activeCalls := [("c1", callAccepted1)] }

/-- State with one initiated call and an admin watching. -/
def stInitiated : ServerState :=
  { activeUsers := [("s1", empU1), ("s2", empU2), ("sA", adminUA)],
    activeCalls := [("c1", callInitiated1)] }

/-- State where socket `s9` is in a call but has no presence entry. -/
def stGhost : ServerState :=
  { activeUsers := [("s2", empU2), ("sA", adminUA)],
    activeCalls := [("c9", callGhost)] }

/-! General lemmas about the JS-`Map` embedding and the admin broadcast. -/

theorem mapGet_nil {α : Type} (j : String) :
    mapGet ([] : List (String × α)) j = none := rfl

theorem mapGet_cons {α : Type} (p : String × α) (t : List (String × α))
    (j : String) :
    mapGet (p :: t) j = if p.1 = j then some p.2 else mapGet t j := by
  by_cases h : p.1 = j
  · rw [mapGet, List.find?_cons_of_pos _ (by simpa using h), if_pos h]
    rfl
  · rw [mapGet, List.find?_cons_of_neg _ (by simpa using h), if_neg h]
    rfl

theorem mapGet_map_overwrite {α : Type} (m : List (String × α)) (k j : String)
    (v : α) :
    mapGet (m.map (fun p => if p.1 = k then (k, v) else p)) j =
      if j = k then (if m.any (fun p => p.1 = k) then some v else none)
      else mapGet m j := by
  induction m with
  | nil => by_cases h : j = k <;> simp [mapGet_nil, h]
  | cons p t ih =>
    simp only [List.map_cons, List.any_cons]
    by_cases hpk : p.1 = k
    · by_cases hjk : j = k
      · subst hjk
        simp [mapGet_cons, hpk]
      · simp [mapGet_cons, hpk, hjk, ih, show ¬ k = j from fun hh => hjk hh.symm]
    · by_cases hpj : p.1 = j
      · have hjk : ¬ j = k := fun hh => hpk (hpj.trans hh)
        simp [mapGet_cons, hpk, hpj, hjk]
      · rw [if_neg hpk, mapGet_cons, if_neg hpj, ih]
        simp only [Bool.or_eq_true, decide_eq_true_eq, hpk, false_or,
          mapGet_cons, if_neg hpj]

theorem mapGet_append_single {α : Type} (m : List (String × α)) (k j : String)
    (v : α) (h : m.any (fun p => p.1 = k) = false) :
    mapGet (m ++ [(k, v)]) j = if j = k then some v else mapGet m j := by
  induction m with
  | nil =>
    by_cases hjk : j = k
    · subst hjk; simp [mapGet_cons]
    · simp [mapGet_cons, mapGet_nil, hjk, show ¬ k = j from fun hh => hjk hh.symm]
  | cons p t ih =>
    simp only [List.any_cons, Bool.or_eq_false_iff] at h
    have hpk : ¬ p.1 = k := by simpa using h.1
    simp only [List.cons_append, mapGet_cons]
    by_cases hpj : p.1 = j
    · have hjk : ¬ j = k := fun hh => hpk (hpj.trans hh)
      simp [hpj, hjk]
    · simp [hpj, ih h.2]

theorem mapGet_mapSet {α : Type} (m : List (String × α)) (k j : String) (v : α) :
    mapGet (mapSet m k v) j = if j = k then some v else mapGet m j := by
  unfold mapSet
  by_cases h : m.any (fun p => p.1 = k)
  · rw [if_pos h, mapGet_map_overwrite, h]
    simp
  · rw [if_neg h, mapGet_append_single m k j v (Bool.eq_false_iff.mpr h)]

theorem mapGet_mapDelete {α : Type} (m : List (String × α)) (k j : String) :
    mapGet (mapDelete m k) j = if j = k then none else mapGet m j := by
  induction m with
  | nil => by_cases h : j = k <;> simp [mapGet_nil, mapDelete, h]
  | cons p t ih =>
    simp only [mapDelete, List.filter_cons, decide_not] at ih ⊢
    by_cases hpk : p.1 = k
    · have hd : (!decide (p.1 = k)) = false := by simp [hpk]
      by_cases hjk : j = k
      · subst hjk
        simp [hd, ih]
      · have hpj : ¬ p.1 = j := fun hh => hjk (hh ▸ hpk)
        simp [hd, mapGet_cons, hpj, hjk, ih]
    · have hd : (!decide (p.1 = k)) = true := by simp [hpk]
      by_cases hpj : p.1 = j
      · have hjk : ¬ j = k := fun hh => hpk (hpj.trans hh)
        simp [hd, mapGet_cons, hpj, hjk]
      · simp [hd, mapGet_cons, hpj, ih]

theorem mem_broadcastToAdmins (users : List (String × UserData))
    (f : String → Emit) (e : Emit) :
    e ∈ broadcastToAdmins users f ↔
      ∃ p, p ∈ users ∧ p.2.role = "admin" ∧ e = f p.1 := by
  unfold broadcastToAdmins
  constructor
  · intro he
    obtain ⟨p, hp, rfl⟩ := List.mem_map.mp he
    have := List.mem_filter.mp hp
    exact ⟨p, this.1, by simpa using this.2, rfl⟩
  · rintro ⟨p, hp, hrole, rfl⟩
    exact List.mem_map.mpr ⟨p, List.mem_filter.mpr ⟨hp, by simpa using hrole⟩, rfl⟩

theorem broadcastToAdmins_all (users : List (String × UserData))
    (f : String → Emit) (g : Emit → Bool) (h : ∀ s, g (f s) = true) :
    (broadcastToAdmins users f).all g = true := by
  rw [List.all_eq_true]
  intro e he
  obtain ⟨p, _, _, rfl⟩ := (mem_broadcastToAdmins users f e).mp he
  exact h p.1

/-- C3: when the callee of an `initiate-call` has no live connection — the
directory has no entry for the callee id, or the stored socket id is falsy —
the handler leaves the state unchanged, issues no durable operation (so no
call record is created and no in-memory session is added), and emits exactly
one `call-error` with the peer-offline message to the caller's socket. -/
theorem initiate_peer_offline (st : ServerState) (sid callerId calleeId : String)
    (callerName : Option String) (findById : String → Option UserRec)
    (newCallId : String) (now : Int)
    (h : calleeOffline findById calleeId = true) :
    initiateCall st sid callerId calleeId callerName findById newCallId now =
      { state := st,
        emits := [{ toSock := sid, event := "call-error",
                    message := some "User is offline" }],
        dbOps := [] } := by
  unfold initiateCall
  unfold calleeOffline at h
  cases hc : findById calleeId with
  | none => rfl
  | some u =>
    rw [hc] at h
    dsimp only at h ⊢
    cases hs : u.socketId with
    | none => rfl
    | some s =>
      rw [hs] at h
      dsimp only at h
      have hs' : s = "" := by simpa using h
      simp [hs']

/-- C3 witness: from `stInitiated`, initiating to the unknown user `u9` yields
exactly the offline error and leaves everything unchanged. -/
theorem initiate_peer_offline_witness :
    calleeOffline exDir "u9" = true
    ∧ initiateCall stInitiated "s1" "u1" "u9" (some "alice") exDir "c2" 9000 =
        { state := stInitiated,
          emits := [{ toSock := "s1", event := "call-error",
                      message := some "User is offline" }],
          dbOps := [] } :=
  ⟨by decide,
   initiate_peer_offline stInitiated "s1" "u1" "u9" (some "alice") exDir "c2" 9000
     (by decide)⟩

/-- C9: each of the `offer`, `answer` and `ice-candidate` relays forwards the
opaque payload to the target connection unmodified, adds only the sender's
socket id, touches no state (the state comes back unchanged, no durable write
is issued, and the emitted message is independent of the server state — in
particular of whether the target connection exists), and never emits a
`call-error`, so no error is surfaced to the sender. -/
theorem relay_pass_through (st st2 : ServerState) (sid target payload : String) :
    ((relayOffer st sid target payload).state = st
     ∧ (relayOffer st sid target payload).dbOps = []
     ∧ (relayOffer st sid target payload).emits.map Emit.toSock = [target]
     ∧ (relayOffer st sid target payload).emits.map Emit.offer = [some payload]
     ∧ (relayOffer st sid target payload).emits.map Emit.caller = [some sid]
     ∧ ((relayOffer st sid target payload).emits.all
          fun e => e.event != "call-error") = true
     ∧ (relayOffer st sid target payload).emits
         = (relayOffer st2 sid target payload).emits)
    ∧ ((relayAnswer st sid target payload).state = st
     ∧ (relayAnswer st sid target payload).dbOps = []
     ∧ (relayAnswer st sid target payload).emits.map Emit.toSock = [target]
     ∧ (relayAnswer st sid target payload).emits.map Emit.answer = [some payload]
     ∧ (relayAnswer st sid target payload).emits.map Emit.callee = [some sid]
     ∧ ((relayAnswer st sid target payload).emits.all
          fun e => e.event != "call-error") = true
     ∧ (relayAnswer st sid target payload).emits
         = (relayAnswer st2 sid target payload).emits)
    ∧ ((relayIceCandidate st sid target payload).state = st
     ∧ (relayIceCandidate st sid target payload).dbOps = []
     ∧ (relayIceCandidate st sid target payload).emits.map Emit.toSock = [target]
     ∧ (relayIceCandidate st sid target payload).emits.map Emit.candidate
         = [some payload]
     ∧ (relayIceCandidate st sid target payload).emits.map Emit.sender = [some sid]
     ∧ ((relayIceCandidate st sid target payload).emits.all
          fun e => e.event != "call-error") = true
     ∧ (relayIceCandidate st sid target payload).emits
         = (relayIceCandidate st2 sid target payload).emits) :=
  ⟨⟨rfl, rfl, rfl, rfl, rfl, rfl, rfl⟩,
   ⟨rfl, rfl, rfl, rfl, rfl, rfl, rfl⟩,
   ⟨rfl, rfl, rfl, rfl, rfl, rfl, rfl⟩⟩

/-- C10: a disconnect of a socket that never registered presence via
`user-joined` performs no cleanup at all — the handler returns with the state
(including every in-memory session referencing that socket) unchanged, emits
nothing (no `call-ended` to the other participant, no admin notification) and
issues no durable write. -/
theorem disconnect_without_presence_noop (st : ServerState) (sid : String)
    (now : Int) (h : mapGet st.activeUsers sid = none) :
    handleDisconnect st sid now = { state := st, emits := [], dbOps := [] } := by
  unfold handleDisconnect
  rw [h]

/-- C10 witness: socket `s9` is the caller of the live session `c9` in
`stGhost` but has no presence entry; its disconnect is a complete no-op. -/
theorem disconnect_without_presence_noop_witness :
    mapGet stGhost.activeUsers "s9" = none
    ∧ involvesSocket callGhost "s9" = true
    ∧ mapGet stGhost.activeCalls "c9" = some callGhost
    ∧ handleDisconnect stGhost "s9" 9000
        = { state := stGhost, emits := [], dbOps := [] } :=
  ⟨by decide, by decide, by decide,
   disconnect_without_presence_noop stGhost "s9" 9000 (by decide)⟩

/-- C4: `accept-call` sends the "Call not found" `call-error` to the requester
exactly when the in-memory session is absent; when the session exists, no
`call-error` is emitted, the in-memory status becomes `accepted`, the single
durable write updates the record to `accepted`, the caller's socket receives
`call-accepted`, and every admin receives `call-status-update`. -/
theorem accept_call_not_found_iff (st : ServerState) (sid callId : String) :
    (mapGet st.activeCalls callId = none →
       acceptCall st sid callId =
         { state := st,
           emits := [{ toSock := sid, event := "call-error",
                       message := some "Call not found" }],
           dbOps := [] })
    ∧ (∀ ci, mapGet st.activeCalls callId = some ci →
         ((acceptCall st sid callId).emits.all
             fun e => e.event != "call-error") = true
         ∧ mapGet (acceptCall st sid callId).state.activeCalls callId
             = some { ci with status := "accepted" }
         ∧ (acceptCall st sid callId).dbOps
             = [DbOp.callUpdate { callId := callId, status := some "accepted" }]
         ∧ (acceptCall st sid callId).emits
             = { toSock := ci.caller.socketId, event := "call-accepted",
                 callId := some callId }
               :: broadcastToAdmins st.activeUsers (fun s =>
                    { toSock := s, event := "call-status-update",
                      call := some { ci with status := "accepted" } })) := by
  constructor
  · intro h
    unfold acceptCall
    rw [h]
  · intro ci h
    have hacc : acceptCall st sid callId = {
        state := { st with activeCalls := mapSet st.activeCalls callId { ci with status := "accepted" } },
        emits := { toSock := ci.caller.socketId, event := "call-accepted", callId := some callId }
          :: broadcastToAdmins st.activeUsers (fun s => { toSock := s, event := "call-status-update", call := some { ci with status := "accepted" } }),
        dbOps := [DbOp.callUpdate { callId := callId, status := some "accepted" }] } := by
      unfold acceptCall
      rw [h]
    refine ⟨?_, ?_, ?_, ?_⟩
    · rw [hacc]
      simp only [List.all_cons, Bool.and_eq_true]
      exact ⟨rfl, broadcastToAdmins_all _ _ _ (fun s => rfl)⟩
    · rw [hacc]
      simp [mapGet_mapSet]
    · rw [hacc]
    · rw [hacc]

/-- C4 witness: accepting the live call `c1` in `stInitiated` issues the
durable `accepted` write, and accepting the unknown id `zz` yields only the
"Call not found" error. -/
theorem accept_call_not_found_iff_witness :
    (acceptCall stInitiated "s2" "c1").dbOps
        = [DbOp.callUpdate { callId := "c1", status := some "accepted" }]
    ∧ acceptCall stInitiated "s2" "zz" =
        { state := stInitiated,
          emits := [{ toSock := "s2", event := "call-error",
                      message := some "Call not found" }],
          dbOps := [] } :=
  ⟨((accept_call_not_found_iff stInitiated "s2" "c1").2 callInitiated1
      (by decide)).2.2.1,
   (accept_call_not_found_iff stInitiated "s2" "zz").1 (by decide)⟩

/-- C5: `end-call` is idempotent: on a live session the first call issues
exactly one durable terminal write, and a second `end-call` for the same id —
the session having been removed from memory — is a complete no-op: no state
change, no emit (hence no error), no durable write. -/
theorem end_call_idempotent (st : ServerState) (sid sid2 callId : String)
    (now now2 : Int) (ci : CallInfo)
    (h : mapGet st.activeCalls callId = some ci) :
    (endCall st sid callId now).dbOps
      = [DbOp.callUpdate { callId := callId, status := some "ended", endTime := some now, duration := some (Int.fdiv (now - ci.startTime) 1000) }]
    ∧ endCall (endCall st sid callId now).state sid2 callId now2
        = { state := (endCall st sid callId now).state, emits := [], dbOps := [] } := by
  constructor
  · simp only [endCall, h]
  · have hnone :
        mapGet (endCall st sid callId now).state.activeCalls callId = none := by
      simp only [endCall, h]
      simp [mapGet_mapDelete]
    generalize hS : (endCall st sid callId now).state = S at hnone ⊢
    unfold endCall
    rw [hnone]

/-- C5 witness: ending the live call `c1` of `stAccepted` writes the single
terminal record, and ending it again is a no-op. -/
theorem end_call_idempotent_witness :
    (endCall stAccepted "s1" "c1" 5000).dbOps
      = [DbOp.callUpdate { callId := "c1", status := some "ended", endTime := some 5000, duration := some (Int.fdiv (5000 - callAccepted1.startTime) 1000) }]
    ∧ endCall (endCall stAccepted "s1" "c1" 5000).state "s2" "c1" 6000
        = { state := (endCall stAccepted "s1" "c1" 5000).state, emits := [], dbOps := [] } :=
  end_call_idempotent stAccepted "s1" "s2" "c1" 5000 6000 callAccepted1 (by decide)

/-- C6: on a live session, `end-call` computes the duration as the clock
difference floored to whole seconds — non-negative whenever the clock did not
run backwards — writes the durable record to `ended` with `endTime` and that
duration, emits `call-ended` to both participants' sockets followed by the
admin broadcast carrying the duration, and removes the session from memory. -/
theorem end_call_effects (st : ServerState) (sid callId : String) (now : Int)
    (ci : CallInfo) (h : mapGet st.activeCalls callId = some ci)
    (ht : ci.startTime ≤ now) :
    0 ≤ Int.fdiv (now - ci.startTime) 1000
    ∧ (endCall st sid callId now).dbOps
        = [DbOp.callUpdate { callId := callId, status := some "ended", endTime := some now, duration := some (Int.fdiv (now - ci.startTime) 1000) }]
    ∧ (endCall st sid callId now).emits
        = [{ toSock := ci.caller.socketId, event := "call-ended", callId := some callId },
           { toSock := ci.callee.socketId, event := "call-ended", callId := some callId }]
          ++ broadcastToAdmins st.activeUsers (fun s => { toSock := s, event := "call-ended", callId := some callId, duration := some (Int.fdiv (now - ci.startTime) 1000) })
    ∧ mapGet (endCall st sid callId now).state.activeCalls callId = none := by
  refine ⟨Int.fdiv_nonneg (by omega) (by norm_num), ?_, ?_, ?_⟩
  · simp only [endCall, h]
  · simp only [endCall, h]
  · simp only [endCall, h]
    simp [mapGet_mapDelete]

/-- C6 witness: ending the accepted call `c1` of `stAccepted` at clock 5000
gives the non-negative duration 4s and removes the session. -/
theorem end_call_effects_witness :
    0 ≤ Int.fdiv (5000 - callAccepted1.startTime) 1000
    ∧ mapGet (endCall stAccepted "s1" "c1" 5000).state.activeCalls "c1"
        = none :=
  ⟨(end_call_effects stAccepted "s1" "c1" 5000 callAccepted1 (by decide)
      (by decide)).1,
   (end_call_effects stAccepted "s1" "c1" 5000 callAccepted1 (by decide)
      (by decide)).2.2.2⟩

/-- C8: `get-active-calls` never changes state or writes durably; the full
in-memory call list is emitted to the requester exactly when the requester's
presence entry exists and has role `admin`; a requester with no presence
entry, or with any other role, receives nothing. -/
theorem get_active_calls_admin_only (st : ServerState) (sid : String) :
    (getActiveCalls st sid).state = st
    ∧ (getActiveCalls st sid).dbOps = []
    ∧ (∀ ud, mapGet st.activeUsers sid = some ud → ud.role = "admin" →
        (getActiveCalls st sid).emits
          = [{ toSock := sid, event := "active-calls",
               calls := some (st.activeCalls.map Prod.snd) }])
    ∧ (mapGet st.activeUsers sid = none → (getActiveCalls st sid).emits = [])
    ∧ (∀ ud, mapGet st.activeUsers sid = some ud → ud.role ≠ "admin" →
        (getActiveCalls st sid).emits = []) := by
  cases hu : mapGet st.activeUsers sid with
  | none =>
    refine ⟨by simp only [getActiveCalls, hu],
            by simp only [getActiveCalls, hu],
            fun ud hud _ => absurd hud (by simp),
            fun _ => by simp only [getActiveCalls, hu],
            fun ud hud _ => absurd hud (by simp)⟩
  | some ud0 =>
    by_cases hr : ud0.role = "admin"
    · refine ⟨by simp only [getActiveCalls, hu, if_pos hr],
              by simp only [getActiveCalls, hu, if_pos hr], ?_, ?_, ?_⟩
      · intro ud hud _
        injection hud with h1
        subst h1
        simp only [getActiveCalls, hu, if_pos hr]
      · intro habs
        cases habs
      · intro ud hud hrole
        injection hud with h1
        subst h1
        exact absurd hr hrole
    · refine ⟨by simp only [getActiveCalls, hu, if_neg hr],
              by simp only [getActiveCalls, hu, if_neg hr], ?_, ?_, ?_⟩
      · intro ud hud hrole
        injection hud with h1
        subst h1
        exact absurd hrole hr
      · intro habs
        cases habs
      · intro ud hud _
        injection hud with h1
        subst h1
        simp only [getActiveCalls, hu, if_neg hr]

/-- C8 witness: in `stAccepted`, the admin socket `sA` receives the full call
list, the employee socket `s1` receives nothing, and the unregistered socket
`s7` receives nothing. -/
theorem get_active_calls_admin_only_witness :
    (getActiveCalls stAccepted "sA").emits
      = [{ toSock := "sA", event := "active-calls",
           calls := some (stAccepted.activeCalls.map Prod.snd) }]
    ∧ (getActiveCalls stAccepted "s1").emits = []
    ∧ (getActiveCalls stAccepted "s7").emits = [] :=
  ⟨(get_active_calls_admin_only stAccepted "sA").2.2.1 adminUA (by decide)
      (by decide),
   (get_active_calls_admin_only stAccepted "s1").2.2.2.2 empU1 (by decide)
      (by decide),
   (get_active_calls_admin_only stAccepted "s7").2.2.2.1 (by decide)⟩

/-- C1 counterexample: in `stAccepted` the session `c1` has status `accepted`,
yet `reject-call` on it is not a no-op — a second durable write (status
`rejected`, `endTime`) is issued and the session is removed from memory. -/
theorem reject_after_accept_cex :
    mapGet stAccepted.activeCalls "c1" = some callAccepted1
    ∧ callAccepted1.status = "accepted"
    ∧ (rejectCall stAccepted "s2" "c1" 5000).dbOps
        = [DbOp.callUpdate { callId := "c1", status := some "rejected", endTime := some 5000 }]
    ∧ mapGet (rejectCall stAccepted "s2" "c1" 5000).state.activeCalls "c1" = none := by
  decide

/-- C1 (amended): `reject-call` on an existing session — even one already
`accepted` — is not a no-op: it issues a second durable write setting the
record to `rejected` with `endTime`, and removes the session from memory.
One-directional flow out of the terminal states holds only in the weaker
sense that terminal operations delete the session: a subsequent `reject-call`
or `end-call` on the same id is a complete no-op, and `accept-call` reports
"Call not found". -/
theorem reject_after_accept_writes_and_removes (st : ServerState)
    (sid sid2 callId : String) (now now2 : Int) (ci : CallInfo)
    (h : mapGet st.activeCalls callId = some ci)
    (hacc : ci.status = "accepted") :
    (rejectCall st sid callId now).dbOps
      = [DbOp.callUpdate { callId := callId, status := some "rejected", endTime := some now }]
    ∧ mapGet (rejectCall st sid callId now).state.activeCalls callId = none
    ∧ rejectCall (rejectCall st sid callId now).state sid2 callId now2
        = { state := (rejectCall st sid callId now).state, emits := [], dbOps := [] }
    ∧ endCall (rejectCall st sid callId now).state sid2 callId now2
        = { state := (rejectCall st sid callId now).state, emits := [], dbOps := [] }
    ∧ acceptCall (rejectCall st sid callId now).state sid2 callId
        = { state := (rejectCall st sid callId now).state,
            emits := [{ toSock := sid2, event := "call-error", message := some "Call not found" }],
            dbOps := [] } := by
  have hnone :
      mapGet (rejectCall st sid callId now).state.activeCalls callId = none := by
    simp only [rejectCall, h]
    simp [mapGet_mapDelete]
  refine ⟨by simp only [rejectCall, h], hnone, ?_, ?_, ?_⟩
  · generalize hS : (rejectCall st sid callId now).state = S at hnone ⊢
    unfold rejectCall
    rw [hnone]
  · generalize hS : (rejectCall st sid callId now).state = S at hnone ⊢
    unfold endCall
    rw [hnone]
  · generalize hS : (rejectCall st sid callId now).state = S at hnone ⊢
    unfold acceptCall
    rw [hnone]

/-- C1 witness: concrete run of the amended claim on the accepted call of
`stAccepted`. -/
theorem reject_after_accept_writes_and_removes_witness :
    (rejectCall stAccepted "s2" "c1" 5000).dbOps
      = [DbOp.callUpdate { callId := "c1", status := some "rejected", endTime := some 5000 }]
    ∧ mapGet (rejectCall stAccepted "s2" "c1" 5000).state.activeCalls "c1" = none
    ∧ rejectCall (rejectCall stAccepted "s2" "c1" 5000).state "s2" "c1" 6000
        = { state := (rejectCall stAccepted "s2" "c1" 5000).state, emits := [], dbOps := [] } := by
  have hthm := reject_after_accept_writes_and_removes stAccepted "s2" "s2" "c1"
    5000 6000 callAccepted1 (by decide) (by decide)
  exact ⟨hthm.1, hthm.2.1, hthm.2.2.1⟩

/-- C2 counterexample: socket `s1` is already caller of the live session `c1`
of `stInitiated`, yet a second `initiate-call` from `s1` (to the online user
`u3`) is not rejected: no `call-error` of any kind is emitted, a second
durable record is created, a second in-memory session is stored, and the
first session remains — two live sessions now reference connection `s1`. -/
theorem second_initiate_cex :
    involvesSocket callInitiated1 "s1" = true
    ∧ mapGet stInitiated.activeCalls "c1" = some callInitiated1
    ∧ ((initiateCall stInitiated "s1" "u1" "u3" (some "alice") exDir "c2" 9000).emits.all
         fun e => e.event != "call-error") = true
    ∧ (initiateCall stInitiated "s1" "u1" "u3" (some "alice") exDir "c2" 9000).dbOps
        = [DbOp.callCreate "c2" "u1" "u3" "initiated"]
    ∧ (initiateCall stInitiated "s1" "u1" "u3" (some "alice") exDir "c2" 9000).state.activeCalls.length = 2
    ∧ mapGet (initiateCall stInitiated "s1" "u1" "u3" (some "alice") exDir "c2" 9000).state.activeCalls "c1"
        = some callInitiated1 := by
  decide

/-- C2 (amended): `initiate-call` performs no busy-check: whenever the callee
resolves to a live socket it creates a fresh durable record and a fresh
in-memory session and emits `incoming-call` first — with no `call-error` and
no AlreadyInCall-like condition — regardless of any existing sessions
referencing the caller's or callee's connection, all of which remain in
memory untouched; a connection can therefore be referenced by several live
sessions at once. -/
theorem initiate_no_busy_check (st : ServerState) (sid callerId calleeId : String)
    (callerName : Option String) (findById : String → Option UserRec)
    (newCallId : String) (now : Int) (u : UserRec) (calleeSock : String)
    (hu : findById calleeId = some u) (hs : u.socketId = some calleeSock)
    (hne : ¬ calleeSock = "") :
    (∃ ci, mapGet (initiateCall st sid callerId calleeId callerName findById newCallId now).state.activeCalls newCallId = some ci
       ∧ ci.status = "initiated" ∧ ci.caller.socketId = sid ∧ ci.callee.socketId = calleeSock)
    ∧ (∀ k, ¬ k = newCallId →
        mapGet (initiateCall st sid callerId calleeId callerName findById newCallId now).state.activeCalls k
          = mapGet st.activeCalls k)
    ∧ (initiateCall st sid callerId calleeId callerName findById newCallId now).dbOps
        = [DbOp.callCreate newCallId callerId calleeId "initiated"]
    ∧ ((initiateCall st sid callerId calleeId callerName findById newCallId now).emits.all
         fun e => e.event != "call-error") = true
    ∧ ((initiateCall st sid callerId calleeId callerName findById newCallId now).emits.map
         Emit.event).head? = some "incoming-call" := by
  refine ⟨?_, ?_, ?_, ?_, ?_⟩
  · simp only [initiateCall, hu, hs, if_neg hne]
    refine ⟨{ callId := newCallId,
              caller := { id := callerId, name := falsyD (orFalsy callerName ((findById callerId).bind resolveUserName)) "Unknown", socketId := sid },
              callee := { id := calleeId, name := falsyD (resolveUserName u) "Unknown", socketId := calleeSock },
              status := "initiated", startTime := now }, ?_, rfl, rfl, rfl⟩
    rw [mapGet_mapSet, if_pos rfl]
  · intro k hk
    simp only [initiateCall, hu, hs, if_neg hne]
    rw [mapGet_mapSet, if_neg hk]
  · simp only [initiateCall, hu, hs, if_neg hne]
  · simp only [initiateCall, hu, hs, if_neg hne, List.all_cons, Bool.and_eq_true]
    exact ⟨rfl, broadcastToAdmins_all _ _ _ (fun s => rfl)⟩
  · simp only [initiateCall, hu, hs, if_neg hne]
    rfl

/-- C2 witness: the second initiate of `second_initiate_cex`, via the general
theorem — the first session survives and the new durable record is created. -/
theorem initiate_no_busy_check_witness :
    mapGet (initiateCall stInitiated "s1" "u1" "u3" (some "alice") exDir "c2" 9000).state.activeCalls "c1"
      = some callInitiated1
    ∧ (initiateCall stInitiated "s1" "u1" "u3" (some "alice") exDir "c2" 9000).dbOps
      = [DbOp.callCreate "c2" "u1" "u3" "initiated"] := by
  have hthm := initiate_no_busy_check stInitiated "s1" "u1" "u3" (some "alice")
    exDir "c2" 9000 { username := some "carol", socketId := some "s3" } "s3"
    (by decide) (by decide) (by decide)
  exact ⟨(hthm.2.1 "c1" (by decide)).trans (by decide), hthm.2.2.1⟩

/-- C7 counterexample: in `stInitiated` the presence-registered socket `s1` is
caller of the live session `c1`; on its disconnect the session is terminated
durably (a `callUpdate` with status `ended` is issued for `c1`), but no
durable write carries reason `disconnect` — the reason tag appears only on
socket messages, contradicting the claim that the durable update carries it. -/
theorem disconnect_durable_reason_cex :
    (mapGet stInitiated.activeUsers "s1").isSome = true
    ∧ involvesSocket callInitiated1 "s1" = true
    ∧ ((handleDisconnect stInitiated "s1" 9000).dbOps.any fun op =>
         match op with
         | DbOp.callUpdate u => u.callId == "c1" && u.status == some "ended"
         | _ => false) = true
    ∧ ((handleDisconnect stInitiated "s1" 9000).dbOps.all fun op =>
         match op with
         | DbOp.callUpdate u => u.reason != some "disconnect"
         | _ => true) = true := by
  decide

/-- C7 (amended): when a presence-registered connection disconnects, every
in-memory session in which it is caller or callee is terminated: the session
is removed from memory; the durable update sets status `ended` with `endTime`
and `duration` but carries no reason tag — reason `disconnect` appears only on
the other participant's `call-ended` event and on the admin broadcast; the
per-session participant notification goes to the other participant's socket;
and provided the disconnecting user is not an admin and the session's two
participant sockets are distinct, no event at all is delivered to the
disconnected connection. -/
theorem disconnect_terminates (st : ServerState) (sid : String) (now : Int)
    (ud : UserData) (h : mapGet st.activeUsers sid = some ud) :
    (handleDisconnect st sid now).state.activeCalls
      = st.activeCalls.filter (fun p => !(involvesSocket p.2 sid))
    ∧ (∀ u, DbOp.callUpdate u ∈ (handleDisconnect st sid now).dbOps →
        u.status = some "ended" ∧ u.reason = none)
    ∧ (∀ p ∈ st.activeCalls, involvesSocket p.2 sid = true →
        DbOp.callUpdate { callId := p.1, status := some "ended", endTime := some now, duration := some (Int.fdiv (now - p.2.startTime) 1000) }
            ∈ (handleDisconnect st sid now).dbOps
        ∧ { toSock := (if p.2.caller.socketId = sid then p.2.callee.socketId else p.2.caller.socketId), event := "call-ended", callId := some p.1, reason := some "disconnect" }
            ∈ (handleDisconnect st sid now).emits
        ∧ ∀ q ∈ st.activeUsers, q.2.role = "admin" →
            ({ toSock := q.1, event := "call-ended", callId := some p.1, reason := some "disconnect" } : Emit)
              ∈ (handleDisconnect st sid now).emits)
    ∧ ((∀ q ∈ st.activeUsers, q.1 = sid → ¬ q.2.role = "admin") →
       (∀ p ∈ st.activeCalls, involvesSocket p.2 sid = true →
          ¬ p.2.caller.socketId = p.2.callee.socketId) →
       ∀ e ∈ (handleDisconnect st sid now).emits, ¬ e.toSock = sid) := by
  have hred : handleDisconnect st sid now = {
      state := { activeUsers := mapDelete st.activeUsers sid, activeCalls := st.activeCalls.filter (fun p => !(involvesSocket p.2 sid)) },
      emits := ((st.activeCalls.filter (fun p => involvesSocket p.2 sid)).map (fun p => (disconnectCallCleanup st.activeUsers sid now p).1)).flatten
        ++ broadcastToAdmins st.activeUsers (fun s => { toSock := s, event := "user-status-update", userId := some ud.id, username := orFalsy (orFalsy ud.username ud.name) ud.email, role := some ud.role, isOnline := some false }),
      dbOps := DbOp.userUpdate ud.id false none
        :: ((st.activeCalls.filter (fun p => involvesSocket p.2 sid)).map (fun p => (disconnectCallCleanup st.activeUsers sid now p).2)).flatten } := by
    unfold handleDisconnect
    rw [h]
  refine ⟨by rw [hred], ?_, ?_, ?_⟩
  · intro u hu
    rw [hred] at hu
    rcases List.mem_cons.mp hu with h1 | h2
    · simp at h1
    · obtain ⟨l, hl, hul⟩ := List.mem_flatten.mp h2
      obtain ⟨p, hp, rfl⟩ := List.mem_map.mp hl
      simp only [disconnectCallCleanup] at hul
      have h3 := List.mem_singleton.mp hul
      injection h3 with h4
      subst h4
      exact ⟨rfl, rfl⟩
  · intro p hp hinv
    have hpm : p ∈ st.activeCalls.filter (fun q => involvesSocket q.2 sid) :=
      List.mem_filter.mpr ⟨hp, hinv⟩
    refine ⟨?_, ?_, ?_⟩
    · rw [hred]
      refine List.mem_cons.mpr (Or.inr ?_)
      refine List.mem_flatten.mpr
        ⟨(disconnectCallCleanup st.activeUsers sid now p).2,
         List.mem_map.mpr ⟨p, hpm, rfl⟩, ?_⟩
      simp [disconnectCallCleanup]
    · rw [hred]
      refine List.mem_append.mpr (Or.inl ?_)
      refine List.mem_flatten.mpr
        ⟨(disconnectCallCleanup st.activeUsers sid now p).1,
         List.mem_map.mpr ⟨p, hpm, rfl⟩, ?_⟩
      simp [disconnectCallCleanup]
    · intro q hq hqrole
      rw [hred]
      refine List.mem_append.mpr (Or.inl ?_)
      refine List.mem_flatten.mpr
        ⟨(disconnectCallCleanup st.activeUsers sid now p).1,
         List.mem_map.mpr ⟨p, hpm, rfl⟩, ?_⟩
      simp only [disconnectCallCleanup]
      refine List.mem_cons.mpr (Or.inr ?_)
      exact (mem_broadcastToAdmins _ _ _).mpr ⟨q, hq, hqrole, rfl⟩
  · intro hadm hdist e he
    rw [hred] at he
    rcases List.mem_append.mp he with h1 | h2
    · obtain ⟨l, hl, hel⟩ := List.mem_flatten.mp h1
      obtain ⟨p, hp, rfl⟩ := List.mem_map.mp hl
      have hpf := List.mem_filter.mp hp
      simp only [disconnectCallCleanup] at hel
      rcases List.mem_cons.mp hel with h3 | h4
      · subst h3
        intro hts
        dsimp only at hts
        by_cases hc : p.2.caller.socketId = sid
        · rw [if_pos hc] at hts
          exact hdist p hpf.1 hpf.2 (hc.trans hts.symm)
        · rw [if_neg hc] at hts
          exact hc hts
      · obtain ⟨q, hq, hqrole, rfl⟩ := (mem_broadcastToAdmins _ _ _).mp h4
        intro hts
        exact hadm q hq hts hqrole
    · obtain ⟨q, hq, hqrole, rfl⟩ := (mem_broadcastToAdmins _ _ _).mp h2
      intro hts
      exact hadm q hq hts hqrole

/-- C7 witness: on the disconnect of `s1` in `stInitiated`, the session table
becomes empty and the other participant's socket `s2` receives `call-ended`
with reason `disconnect`. -/
theorem disconnect_terminates_witness :
    (handleDisconnect stInitiated "s1" 9000).state.activeCalls = []
    ∧ ({ toSock := "s2", event := "call-ended", callId := some "c1", reason := some "disconnect" } : Emit)
        ∈ (handleDisconnect stInitiated "s1" 9000).emits := by
  have hthm := disconnect_terminates stInitiated "s1" 9000 empU1 (by decide)
  refine ⟨hthm.1.trans (by decide), ?_⟩
  have hm := (hthm.2.2.1 ("c1", callInitiated1) (by decide) (by decide)).2.1
  simpa using hm

end CallServer
